import Mathlib

/-!
Verification of the makina robot-agent core: a shallow embedding of
`llm_tool_server/bridge_ros2.py` (the `MockBridge` state machine) and of
`llm_tool_server/main.py` (zone resolution `resolve_zone_key` /
`canonicalize_identifier` and the `/tool-call` dispatcher), with theorems
settling the specification's claims about them.

Modelling conventions:
- Python `float` is modelled as `Rat` (no claim depends on binary rounding).
- Python dicts that hold poses (`Dict[str, float]`) are association lists.
- `time.sleep` simulates latency only and touches no state; it is omitted.
- Regex character classes `\s`, `\d` and `str.lower` are modelled over their
  ASCII meaning (the claims and the configuration use ASCII identifiers).
-/

namespace Makina

/-- A pose dictionary, e.g. `{"x": 0.1, "y": 0.2, "z": 0.3}` (`Dict[str, float]`). -/
abbrev PoseDict := List (String × Rat)

/-- `ZoneDefinition` dataclass from bridge_ros2.py. -/
structure ZoneDefinition where
  center_pose : PoseDict
  tolerance_m : Rat
deriving DecidableEq

/-- The `Dict[str, Any]` returned by the bridge operations: an `ok` flag plus
the keys any of `set_speed`/`stop`/`pick`/`place` may populate.  The extra
`new_pose` key is absent (`none`) at bridge level; the dispatcher's
`move_object` adds it (`p2["new_pose"] = new_pose`). -/
structure BridgeResult where
  ok : Bool
  error : Option String
  placed_object : Option String
  target : Option String
  pose : Option PoseDict
  new_pose : Option PoseDict
deriving DecidableEq

/-- `{"ok": False, "error": e}`. -/
def BridgeResult.fail (e : String) : BridgeResult :=
  { ok := false, error := some e, placed_object := none, target := none,
    pose := none, new_pose := none }

/-- `{"ok": True}`. -/
def BridgeResult.success : BridgeResult :=
  { ok := true, error := none, placed_object := none, target := none,
    pose := none, new_pose := none }

/-- The mutable state of `MockBridge` (bridge_ros2.py, `__init__`).
The zone table is an ordered association list, mirroring Python's
insertion-ordered dict. -/
structure MockBridge where
  held_object : Option String
  speed_scale : Rat
  zones : List (String × ZoneDefinition)
  last_action : String
  stopped : Bool
deriving DecidableEq

/-- Two-decimal rendering used by the `set_speed` audit label
(`f"set_speed:{scale:.2f}"`): `⌊100q + 1/2⌋ = ⌊(200·num + den) / (2·den)⌋`,
written over `Int` so it evaluates.  The exact rounding mode at half-way
points is immaterial to every claim (the label is only ever compared as a
whole for concrete inputs or for being overwritten). -/
def formatRat2 (q : Rat) : String :=
  let c : Int := Int.fdiv (200 * q.num + q.den) (2 * q.den)
  let sign := if c < 0 then "-" else ""
  let n := c.natAbs
  sign ++ toString (n / 100) ++ "." ++
    (if n % 100 < 10 then "0" else "") ++ toString (n % 100)

/-- `MockBridge.set_speed` (bridge_ros2.py lines 27-32). -/
def MockBridge.set_speed (b : MockBridge) (scale : Rat) : BridgeResult × MockBridge :=
  if ¬ (mkRat 1 10 ≤ scale ∧ scale ≤ 1) then
    (BridgeResult.fail "scale_out_of_range", b)
  else
    (BridgeResult.success,
     { b with speed_scale := scale, last_action := "set_speed:" ++ formatRat2 scale })

/-- `MockBridge.stop` (bridge_ros2.py lines 34-38). -/
def MockBridge.stop (b : MockBridge) : BridgeResult × MockBridge :=
  (BridgeResult.success,
   { b with stopped := true, last_action := "stop", held_object := none })

/-- `MockBridge.pick` (bridge_ros2.py lines 40-47).  `grip_strength` is
accepted and ignored, as in the source; `time.sleep` is latency only. -/
def MockBridge.pick (b : MockBridge) (object_id : String) (grip_strength : Rat) :
    BridgeResult × MockBridge :=
  if b.stopped then (BridgeResult.fail "stopped", b)
  else
    (BridgeResult.success,
     { b with held_object := some object_id, last_action := "pick:" ++ object_id })

/-- The `f"place:{target or 'pose'}"` audit label: Python's `or` falls back on
`None` and on the falsy empty string. -/
def placeLabel (target : Option String) : String :=
  match target with
  | some t => if t = "" then "pose" else t
  | none => "pose"

/-- The `target is not None and target not in self.zones` test of `place`
(bridge_ros2.py lines 56-57). -/
def placeUnknownZone (b : MockBridge) (target : Option String) : Bool :=
  match target with
  | some t => !(b.zones.map Prod.fst).contains t
  | none => false

/-- `MockBridge.place` (bridge_ros2.py lines 49-64). -/
def MockBridge.place (b : MockBridge) (target : Option String) (pose : Option PoseDict) :
    BridgeResult × MockBridge :=
  if b.stopped then (BridgeResult.fail "stopped", b)
  else if b.held_object = none then (BridgeResult.fail "no_object_held", b)
  else if target = none ∧ pose = none then (BridgeResult.fail "target_or_pose_required", b)
  else if placeUnknownZone b target then (BridgeResult.fail "unknown_zone", b)
  else
    ({ ok := true, error := none, placed_object := b.held_object, target := target,
       pose := pose, new_pose := none },
     { b with held_object := none, last_action := "place:" ++ placeLabel target })

/-- The snapshot dict returned by `MockBridge.query_status` (lines 66-73). -/
structure StatusSnapshot where
  ok : Bool
  held_object : Option String
  speed_scale : Rat
  stopped : Bool
  last_action : String
deriving DecidableEq

/-- `MockBridge.query_status`: read-only snapshot. -/
def MockBridge.query_status (b : MockBridge) : StatusSnapshot :=
  { ok := true, held_object := b.held_object, speed_scale := b.speed_scale,
    stopped := b.stopped, last_action := b.last_action }

/-! ### Zone resolution (main.py lines 35-51)

Character classes are modelled over their ASCII meaning via `Char.toNat`
comparisons, so that every fact about them reduces to `Nat` arithmetic:
`pyIsSpace` is Python's `\s` (space, tab, LF, VT, FF, CR), `pyIsDigit` is
`\d` restricted to `0-9`, and `pyLowerChar` is `str.lower` on ASCII. -/

/-- Python regex `\s` (ASCII part). -/
def pyIsSpace (c : Char) : Bool :=
  c.toNat = 32 || c.toNat = 9 || c.toNat = 10 || c.toNat = 11 || c.toNat = 12 || c.toNat = 13

/-- Python regex `\d` (ASCII decimal digits). -/
def pyIsDigit (c : Char) : Bool :=
  48 ≤ c.toNat && c.toNat ≤ 57

/-- `str.lower` on one ASCII character. -/
def pyLowerChar (c : Char) : Char :=
  if 65 ≤ c.toNat ∧ c.toNat ≤ 90 then Char.ofNat (c.toNat + 32) else c

/-- `canonicalize_identifier` (main.py lines 35-36): lower-case, then strip
every character outside `[a-z0-9]`. -/
def canonicalize_identifier (value : String) : String :=
  String.mk ((value.data.map pyLowerChar).filter
    (fun c => (97 ≤ c.toNat && c.toNat ≤ 122) || (48 ≤ c.toNat && c.toNat ≤ 57)))

/-- Case-insensitive test for one letter of the literal `zone`:
`lo` is the lower-case code point, `up` the upper-case one. -/
def ciLetter (lo up : Nat) (c : Char) : Bool :=
  c.toNat = lo || c.toNat = up

/-- Whether the list starts with the literal `zone`, case-insensitively
(the `(?:zone\s*)?` group head of the regex in `resolve_zone_key`). -/
def matchesZoneWord : List Char → Bool
  | c1 :: c2 :: c3 :: c4 :: _ =>
    ciLetter 122 90 c1 && ciLetter 111 79 c2 && ciLetter 110 78 c3 && ciLetter 101 69 c4
  | _ => false

/-- Drop a leading case-insensitive `zone` and the whitespace after it, when
present (the optional group of the regex). -/
def afterZoneWord (cs : List Char) : List Char :=
  if matchesZoneWord cs then (cs.drop 4).dropWhile pyIsSpace else cs

/-- `int` on a run of ASCII digits. -/
def digitsToNat (ds : List Char) : Nat :=
  ds.foldl (fun n c => n * 10 + (c.toNat - 48)) 0

/-- `re.fullmatch(r"\s*(?:zone\s*)?(\d+)\s*", name, re.IGNORECASE)` followed by
`int(m.group(1))`: the ordinal branch of `resolve_zone_key`.  After skipping
leading whitespace and an optional `zone` prefix, the string must be a
nonempty digit run followed only by whitespace; its value is returned. -/
def parseOrdinal (name : String) : Option Nat :=
  if (afterZoneWord (name.data.dropWhile pyIsSpace)).takeWhile pyIsDigit ≠ [] ∧
     ((afterZoneWord (name.data.dropWhile pyIsSpace)).dropWhile pyIsDigit).all pyIsSpace then
    some (digitsToNat ((afterZoneWord (name.data.dropWhile pyIsSpace)).takeWhile pyIsDigit))
  else none

/-- The zone/object/workspace part of the in-memory `SETTINGS` mapping that
the dispatcher reads and writes (`main.py`); ordered as in the YAML file. -/
structure SettingsZone where
  center_pose : PoseDict
  tolerance_m : Rat
deriving DecidableEq

/-- In-memory `SETTINGS`: `zones`, `objects` (each object holding its
`"pose"` entry) and the opaque `workspace` pass-through section. -/
structure Settings where
  zones : List (String × SettingsZone)
  objects : List (String × PoseDict)
  workspace : PoseDict
deriving DecidableEq

/-- The ordinal branch of `resolve_zone_key` (main.py lines 42-46): when the
regex matches and the 1-based index is in range, the key at that position. -/
def ordinalLookup (settings : Settings) (name : String) : Option String :=
  match parseOrdinal name with
  | some idx =>
    if 1 ≤ idx ∧ idx ≤ (settings.zones.map Prod.fst).length then
      (settings.zones.map Prod.fst)[idx - 1]?
    else none
  | none => none

/-- `resolve_zone_key` (main.py lines 39-51): ordinal branch first; when it
does not return, a first-match scan over canonicalized keys. -/
def resolve_zone_key (settings : Settings) (name : String) : Option String :=
  match ordinalLookup settings name with
  | some k => some k
  | none =>
    (settings.zones.map Prod.fst).find?
      (fun key => canonicalize_identifier key == canonicalize_identifier name)

/-! ### The `/tool-call` dispatcher (main.py lines 330-397) -/

/-- A JSON-ish argument value as it reaches `tool_call`.  Claims exercise
string ids/targets and pose dicts; numeric values appear for `scale` and
`grip_strength`. -/
inductive Value where
  | num : Rat → Value
  | vstr : String → Value
  | vpose : PoseDict → Value
deriving DecidableEq

/-- `req.arguments.get(k)`. -/
def lookupArg (args : List (String × Value)) (k : String) : Option Value :=
  (args.find? (fun kv => kv.1 == k)).map Prod.snd

/-- The `str(exc)` detail of the `TypeError` Python raises for
`float(None)`. -/
def floatOfNoneMsg : String :=
  "float() argument must be a string or a real number, not NoneType"

/-- Python `float(x)` on an argument value: `None` raises `TypeError`.
`float` on a non-numeric string raises `ValueError`; numeric strings would
parse in Python, but no claim supplies a string-typed number, so they are
modelled as raising too.  `float` of a dict raises `TypeError`. -/
def pyFloat : Option Value → Except String Rat
  | some (Value.num q) => Except.ok q
  | some (Value.vstr _) => Except.error "could not convert string to float"
  | some (Value.vpose _) => Except.error "float() argument must be a string or a real number, not dict"
  | none => Except.error floatOfNoneMsg

/-- Python `str(x)`: the identity on strings, `"None"` for a missing
argument.  Renderings of numbers/dicts are placeholders — they are only ever
used as opaque object-id keys, and no claim passes a non-string id. -/
def pyStrOpt : Option Value → String
  | some (Value.vstr s) => s
  | some (Value.num q) => toString q.num ++ "/" ++ toString q.den
  | some (Value.vpose _) => "dict"
  | none => "None"

/-- The raw `pose` argument as the bridge receives it.  Non-dict pose values
are outside the modelled input space and read as absent. -/
def getPoseArg : Option Value → Option PoseDict
  | some (Value.vpose p) => some p
  | _ => none

/-- The full in-process server state the dispatcher touches: the in-memory
`SETTINGS` (whose `objects` section is what "persisted pose" means — the
YAML write mirrors it) and the `BRIDGE`. -/
structure ServerState where
  settings : Settings
  bridge : MockBridge
deriving DecidableEq

/-- Payload of a `ToolCallResponse.result`. -/
inductive ResultPayload where
  | bridge : BridgeResult → ResultPayload
  | status : StatusSnapshot → ResultPayload
  | config : List (String × SettingsZone) → List (String × PoseDict) → PoseDict → ResultPayload
deriving DecidableEq

/-- `ToolCallResponse` pydantic model (main.py lines 59-62). -/
structure ToolCallResponse where
  ok : Bool
  result : Option ResultPayload
  error : Option String
deriving DecidableEq

/-- What one `/tool-call` request produces: either a `ToolCallResponse`, or
an `HTTPException(status_code, detail)` raised by the final
`except Exception` handler (main.py lines 396-397). -/
inductive ToolCallResult where
  | response : ToolCallResponse → ToolCallResult
  | httpError : Nat → String → ToolCallResult
deriving DecidableEq

/-- `SETTINGS.setdefault("objects", {}).setdefault(id, {})["pose"] = p`:
update the pose of an existing object in place, or append a new entry. -/
def setObjectPose (objects : List (String × PoseDict)) (id : String) (p : PoseDict) :
    List (String × PoseDict) :=
  if objects.any (fun kv => kv.1 == id) then
    objects.map (fun kv => if kv.1 == id then (kv.1, p) else kv)
  else objects ++ [(id, p)]

/-- `SETTINGS.get("zones", {}).get(k, {}).get("center_pose", {})`. -/
def settingsCenterPose (settings : Settings) (k : String) : PoseDict :=
  match settings.zones.find? (fun kv => kv.1 == k) with
  | some kv => kv.2.center_pose
  | none => []

/-- The persisted pose after a successful placement: the zone's configured
center pose when placed by zone, otherwise `pose or {}`. -/
def newPoseFor (settings : Settings) (zone_key : Option String) (pose : Option PoseDict) :
    PoseDict :=
  match zone_key with
  | some k => settingsCenterPose settings k
  | none => pose.getD []

/-- Target resolution shared by the `place` and `move_object` branches:
`none` means the branch returns `unknown_zone` before touching the bridge;
`some zone_key` is the `zone_key` local (absent target resolves to `none`). -/
def resolveTarget (settings : Settings) (target : Option String) :
    Option (Option String) :=
  match target with
  | none => some none
  | some t =>
    match resolve_zone_key settings t with
    | some k => some (some k)
    | none => none

/-- `SETTINGS.get("objects", {})` lookup of one object's persisted pose. -/
def objectPose (settings : Settings) (id : String) : Option PoseDict :=
  (settings.objects.find? (fun kv => kv.1 == id)).map Prod.snd

/-- The `if placed_object:` persistence condition of the `place` branch:
a truthy (present, nonempty) placed object on a successful result. -/
def placePersists (rb : BridgeResult) : Bool :=
  rb.ok && (match rb.placed_object with
            | some po => !(po == "")
            | none => false)

/-- The settings after the `place` branch: the placed object's pose is
persisted when the bridge succeeded with a truthy placed object. -/
def placeSettingsAfter (st : ServerState) (zone_key : Option String)
    (pose : Option PoseDict) : Settings :=
  if placePersists (st.bridge.place zone_key pose).1 then
    { st.settings with
      objects := setObjectPose st.settings.objects
        ((st.bridge.place zone_key pose).1.placed_object.getD "")
        (newPoseFor st.settings zone_key pose) }
  else st.settings

/-- The `place` branch of `tool_call` (main.py lines 351-369), with `target`
already taken through `str` and `pose` through the raw lookup. -/
def tool_place (st : ServerState) (target : Option String) (pose : Option PoseDict) :
    ToolCallResult × ServerState :=
  match resolveTarget st.settings target with
  | none =>
    (ToolCallResult.response { ok := false, result := none, error := some "unknown_zone" }, st)
  | some zone_key =>
    (ToolCallResult.response
       { ok := (st.bridge.place zone_key pose).1.ok,
         result := some (ResultPayload.bridge (st.bridge.place zone_key pose).1),
         error := (st.bridge.place zone_key pose).1.error },
     { settings := placeSettingsAfter st zone_key pose,
       bridge := (st.bridge.place zone_key pose).2 })

/-- `p1 = BRIDGE.pick(object_id=object_id)` inside `move_object`
(default grip strength 0.6). -/
def moPick (st : ServerState) (object_id : String) : BridgeResult × MockBridge :=
  st.bridge.pick object_id (mkRat 6 10)

/-- `p2 = BRIDGE.place(target=zone_key, pose=pose)` inside `move_object`,
performed on the post-pick bridge. -/
def moPlace (st : ServerState) (object_id : String) (zone_key : Option String)
    (pose : Option PoseDict) : BridgeResult × MockBridge :=
  (moPick st object_id).2.place zone_key pose

/-- The `move_object` branch of `tool_call` (main.py lines 370-391), with
`object_id`/`target` already taken through `str`. -/
def tool_move_object (st : ServerState) (object_id : String) (target : Option String)
    (pose : Option PoseDict) : ToolCallResult × ServerState :=
  match resolveTarget st.settings target with
  | none =>
    (ToolCallResult.response { ok := false, result := none, error := some "unknown_zone" }, st)
  | some zone_key =>
    if (moPick st object_id).1.ok = false then
      (ToolCallResult.response
         { ok := false, result := none, error := (moPick st object_id).1.error },
       { st with bridge := (moPick st object_id).2 })
    else if (moPlace st object_id zone_key pose).1.ok = true then
      (ToolCallResult.response
         { ok := true,
           result := some (ResultPayload.bridge
             { (moPlace st object_id zone_key pose).1 with
               new_pose := some (newPoseFor st.settings zone_key pose) }),
           error := (moPlace st object_id zone_key pose).1.error },
       { settings :=
           { st.settings with
             objects :=
               setObjectPose st.settings.objects object_id
                 (newPoseFor st.settings zone_key pose) },
         bridge := (moPlace st object_id zone_key pose).2 })
    else
      (ToolCallResult.response
         { ok := false,
           result := some (ResultPayload.bridge (moPlace st object_id zone_key pose).1),
           error := (moPlace st object_id zone_key pose).1.error },
       { st with bridge := (moPlace st object_id zone_key pose).2 })

/-- The fixed action vocabulary of the dispatcher. -/
def toolNames : List String :=
  ["get_config", "set_speed", "stop", "pick", "place", "move_object", "query_status"]

/-- The `/tool-call` endpoint body (main.py lines 330-397).  The surrounding
`try` turns any raised exception — in this model, only the `float()` argument
coercions can raise — into `HTTPException(400, str(exc))`. -/
def tool_call (st : ServerState) (name : String) (args : List (String × Value)) :
    ToolCallResult × ServerState :=
  if name = "get_config" then
    (ToolCallResult.response
       { ok := true,
         result := some (ResultPayload.config st.settings.zones st.settings.objects
           st.settings.workspace),
         error := none }, st)
  else if name = "set_speed" then
    match pyFloat (lookupArg args "scale") with
    | Except.error msg => (ToolCallResult.httpError 400 msg, st)
    | Except.ok scale =>
      let rb := st.bridge.set_speed scale
      (ToolCallResult.response { ok := rb.1.ok, result := some (ResultPayload.bridge rb.1),
                                 error := rb.1.error },
       { st with bridge := rb.2 })
  else if name = "stop" then
    let rb := st.bridge.stop
    (ToolCallResult.response { ok := rb.1.ok, result := some (ResultPayload.bridge rb.1),
                               error := rb.1.error },
     { st with bridge := rb.2 })
  else if name = "pick" then
    let object_id := pyStrOpt (lookupArg args "object_id")
    match pyFloat (match lookupArg args "grip_strength" with
                   | some v => some v
                   | none => some (Value.num (mkRat 6 10))) with
    | Except.error msg => (ToolCallResult.httpError 400 msg, st)
    | Except.ok grip =>
      let rb := st.bridge.pick object_id grip
      (ToolCallResult.response { ok := rb.1.ok, result := some (ResultPayload.bridge rb.1),
                                 error := rb.1.error },
       { st with bridge := rb.2 })
  else if name = "place" then
    tool_place st ((lookupArg args "target").map (fun v => pyStrOpt (some v)))
      (getPoseArg (lookupArg args "pose"))
  else if name = "move_object" then
    tool_move_object st (pyStrOpt (lookupArg args "object_id"))
      ((lookupArg args "target").map (fun v => pyStrOpt (some v)))
      (getPoseArg (lookupArg args "pose"))
  else if name = "query_status" then
    (ToolCallResult.response { ok := true, result := some (ResultPayload.status st.bridge.query_status),
                               error := none }, st)
  else
    (ToolCallResult.response { ok := false, result := none, error := some "unknown_tool" }, st)

/-! ### Action sequences, for the temporal claims -/

/-- One bridge-level action, for quantifying over action sequences. -/
inductive BridgeOp where
  | speed : Rat → BridgeOp
  | stop : BridgeOp
  | pick : String → Rat → BridgeOp
  | place : Option String → Option PoseDict → BridgeOp
  | status : BridgeOp
deriving DecidableEq

/-- The state a bridge operation leaves behind. -/
def applyBridgeOp (b : MockBridge) : BridgeOp → MockBridge
  | BridgeOp.speed s => (b.set_speed s).2
  | BridgeOp.stop => b.stop.2
  | BridgeOp.pick oid g => (b.pick oid g).2
  | BridgeOp.place t p => (b.place t p).2
  | BridgeOp.status => b

/-- Run a sequence of bridge operations. -/
def applyBridgeOps (b : MockBridge) (ops : List BridgeOp) : MockBridge :=
  ops.foldl applyBridgeOp b

/-- One raw dispatcher request. -/
structure ToolReq where
  name : String
  args : List (String × Value)
deriving DecidableEq

/-- The server state one dispatched request leaves behind. -/
def applyTool (st : ServerState) (r : ToolReq) : ServerState :=
  (tool_call st r.name r.args).2

/-- Run a sequence of dispatched requests. -/
def applyTools (st : ServerState) (rs : List ToolReq) : ServerState :=
  rs.foldl applyTool st

/-! ### Specification-side descriptions -/

/-- Whether `place`'s explicit target, when present, is a key of the bridge's
zone table (`target not in self.zones` is its negation). -/
def targetKnown (b : MockBridge) (target : Option String) : Bool :=
  match target with
  | some t => (b.zones.map Prod.fst).contains t
  | none => true

/-- The spec's "optional literal 'zone'" (case-insensitive): empty, or the
four letters z-o-n-e in either case. -/
def isZoneWord (z : List Char) : Prop :=
  z = [] ∨ ∃ c1 c2 c3 c4, z = [c1, c2, c3, c4] ∧
    ciLetter 122 90 c1 = true ∧ ciLetter 111 79 c2 = true ∧
    ciLetter 110 78 c3 = true ∧ ciLetter 101 69 c4 = true

/-- The spec's description of an ordinal zone reference: surrounding
whitespace, an optional literal `zone` (case-insensitive) followed by
optional whitespace, then a nonempty run of digits with value `n`. -/
def OrdinalRef (name : String) (n : Nat) : Prop :=
  ∃ w1 z w2 ds w3 : List Char,
    name.data = w1 ++ z ++ w2 ++ ds ++ w3 ∧
    (∀ c ∈ w1, pyIsSpace c = true) ∧
    isZoneWord z ∧
    (∀ c ∈ w2, pyIsSpace c = true) ∧
    ds ≠ [] ∧ (∀ c ∈ ds, pyIsDigit c = true) ∧
    (∀ c ∈ w3, pyIsSpace c = true) ∧
    n = digitsToNat ds

/-! ### Sample configurations for concrete instantiations -/

/-- A sample pose, standing for zone_a's configured `center_pose`. -/
def samplePose : PoseDict := [("x", mkRat 1 10), ("y", mkRat 2 10), ("z", mkRat 3 10)]

/-- Zone configuration entry for the samples. -/
def sampleZoneCfg : SettingsZone := { center_pose := samplePose, tolerance_m := mkRat 3 100 }

/-- Bridge-side zone definition for the samples. -/
def sampleZoneDef : ZoneDefinition := { center_pose := samplePose, tolerance_m := mkRat 3 100 }

/-- Settings with `zone_a` as the only declared zone. -/
def sampleSettings : Settings :=
  { zones := [("zone_a", sampleZoneCfg)], objects := [], workspace := [] }

/-- Settings with two declared zones, `zone_a` first. -/
def twoZoneSettings : Settings :=
  { zones := [("zone_a", sampleZoneCfg), ("zone_b", sampleZoneCfg)],
    objects := [], workspace := [] }

/-- Settings whose second zone is literally keyed `zone1`: the reference
`"zone1"` takes the ordinal path to the first key, `"Zone-1"` the canonical
path to the second. -/
def collisionSettings : Settings :=
  { zones := [("alpha", sampleZoneCfg), ("zone1", sampleZoneCfg)],
    objects := [], workspace := [] }

/-- A freshly built bridge over `zone_a`, running, holding nothing. -/
def sampleBridge : MockBridge :=
  { held_object := none, speed_scale := mkRat 3 10, zones := [("zone_a", sampleZoneDef)],
    last_action := "idle", stopped := false }

/-- The sample bridge while holding `red_cube`. -/
def heldBridge : MockBridge :=
  { sampleBridge with held_object := some "red_cube" }

/-- The sample bridge after an emergency stop. -/
def stoppedBridge : MockBridge :=
  { sampleBridge with stopped := true }

/-- Sample server state: `sampleSettings` plus `sampleBridge`. -/
def sampleServer : ServerState := { settings := sampleSettings, bridge := sampleBridge }

/-- Sample server state whose bridge is stopped. -/
def stoppedServer : ServerState := { settings := sampleSettings, bridge := stoppedBridge }

/-! ## Helper lemmas about the bridge operations -/

/-- The placed state of a successful `place`. -/
def placedState (b : MockBridge) (t : Option String) : MockBridge :=
  { b with held_object := none, last_action := "place:" ++ placeLabel t }

/-- The result of a successful `place`. -/
def placedResult (b : MockBridge) (t : Option String) (p : Option PoseDict) : BridgeResult :=
  { ok := true, error := none, placed_object := b.held_object, target := t,
    pose := p, new_pose := none }

lemma set_speed_result_cases (b : MockBridge) (s : Rat) :
    b.set_speed s = (BridgeResult.fail "scale_out_of_range", b) ∨
    b.set_speed s =
      (BridgeResult.success,
       { b with speed_scale := s, last_action := "set_speed:" ++ formatRat2 s }) := by
  unfold MockBridge.set_speed
  split
  · exact Or.inl rfl
  · exact Or.inr rfl

lemma pick_result_cases (b : MockBridge) (oid : String) (g : Rat) :
    b.pick oid g = (BridgeResult.fail "stopped", b) ∨
    b.pick oid g =
      (BridgeResult.success,
       { b with held_object := some oid, last_action := "pick:" ++ oid }) := by
  unfold MockBridge.pick
  split
  · exact Or.inl rfl
  · exact Or.inr rfl

lemma place_result_cases (b : MockBridge) (t : Option String) (p : Option PoseDict) :
    b.place t p = (BridgeResult.fail "stopped", b) ∨
    b.place t p = (BridgeResult.fail "no_object_held", b) ∨
    b.place t p = (BridgeResult.fail "target_or_pose_required", b) ∨
    b.place t p = (BridgeResult.fail "unknown_zone", b) ∨
    b.place t p = (placedResult b t p, placedState b t) := by
  unfold MockBridge.place
  split
  · exact Or.inl rfl
  split
  · exact Or.inr (Or.inl rfl)
  split
  · exact Or.inr (Or.inr (Or.inl rfl))
  split
  · exact Or.inr (Or.inr (Or.inr (Or.inl rfl)))
  · exact Or.inr (Or.inr (Or.inr (Or.inr rfl)))

lemma set_speed_stopped (b : MockBridge) (s : Rat) :
    (b.set_speed s).2.stopped = b.stopped := by
  rcases set_speed_result_cases b s with hc | hc <;> rw [hc]

lemma pick_stopped_inv (b : MockBridge) (oid : String) (g : Rat) :
    (b.pick oid g).2.stopped = b.stopped := by
  rcases pick_result_cases b oid g with hc | hc <;> rw [hc]

lemma place_stopped_inv (b : MockBridge) (t : Option String) (p : Option PoseDict) :
    (b.place t p).2.stopped = b.stopped := by
  rcases place_result_cases b t p with hc | hc | hc | hc | hc <;> rw [hc] <;> rfl

lemma pick_of_stopped (b : MockBridge) (oid : String) (g : Rat) (h : b.stopped = true) :
    b.pick oid g = (BridgeResult.fail "stopped", b) := by
  simp [MockBridge.pick, h]

lemma pick_of_running (b : MockBridge) (oid : String) (g : Rat) (h : b.stopped = false) :
    b.pick oid g =
      (BridgeResult.success,
       { b with held_object := some oid, last_action := "pick:" ++ oid }) := by
  simp [MockBridge.pick, h]

lemma set_speed_fail_error (b : MockBridge) (s : Rat) (h : (b.set_speed s).1.ok = false) :
    (b.set_speed s).1.error.isSome = true := by
  rcases set_speed_result_cases b s with hc | hc <;> rw [hc] at h ⊢
  · rfl
  · simp [BridgeResult.success] at h

lemma pick_fail_error (b : MockBridge) (oid : String) (g : Rat)
    (h : (b.pick oid g).1.ok = false) : (b.pick oid g).1.error = some "stopped" := by
  rcases pick_result_cases b oid g with hc | hc <;> rw [hc] at h ⊢
  · rfl
  · simp [BridgeResult.success] at h

lemma place_fail_error (b : MockBridge) (t : Option String) (p : Option PoseDict)
    (h : (b.place t p).1.ok = false) : (b.place t p).1.error.isSome = true := by
  rcases place_result_cases b t p with hc | hc | hc | hc | hc <;> rw [hc] at h ⊢ <;>
    first
    | rfl
    | simp [placedResult] at h

lemma place_ok_eq (b : MockBridge) (t : Option String) (p : Option PoseDict)
    (h : (b.place t p).1.ok = true) :
    b.place t p = (placedResult b t p, placedState b t) := by
  rcases place_result_cases b t p with hc | hc | hc | hc | hc <;> rw [hc] at h ⊢ <;>
    first
    | rfl
    | simp [BridgeResult.fail] at h

/-! ## Stopped-state invariance through every operation -/

lemma stop_stopped (b : MockBridge) : b.stop.2.stopped = true := rfl

lemma applyBridgeOp_stopped (b : MockBridge) (op : BridgeOp) (h : b.stopped = true) :
    (applyBridgeOp b op).stopped = true := by
  cases op with
  | speed s => rw [applyBridgeOp, set_speed_stopped]; exact h
  | stop => rfl
  | pick oid g => rw [applyBridgeOp, pick_stopped_inv]; exact h
  | place t p => rw [applyBridgeOp, place_stopped_inv]; exact h
  | status => exact h

lemma applyBridgeOps_stopped (b : MockBridge) (ops : List BridgeOp) (h : b.stopped = true) :
    (applyBridgeOps b ops).stopped = true := by
  induction ops generalizing b with
  | nil => exact h
  | cons op rest ih => exact ih (applyBridgeOp b op) (applyBridgeOp_stopped b op h)

lemma moPick_stopped_inv (st : ServerState) (oid : String) :
    (moPick st oid).2.stopped = st.bridge.stopped := by
  unfold moPick
  exact pick_stopped_inv st.bridge oid (mkRat 6 10)

lemma moPlace_stopped_inv (st : ServerState) (oid : String) (zk : Option String)
    (p : Option PoseDict) : (moPlace st oid zk p).2.stopped = st.bridge.stopped := by
  unfold moPlace
  rw [place_stopped_inv, moPick_stopped_inv]

lemma tool_place_stopped (st : ServerState) (t : Option String) (p : Option PoseDict)
    (h : st.bridge.stopped = true) : (tool_place st t p).2.bridge.stopped = true := by
  unfold tool_place
  split
  · exact h
  · rename_i zk heq
    show (st.bridge.place zk p).2.stopped = true
    rw [place_stopped_inv]
    exact h

lemma tool_move_object_stopped (st : ServerState) (oid : String) (t : Option String)
    (p : Option PoseDict) (h : st.bridge.stopped = true) :
    (tool_move_object st oid t p).2.bridge.stopped = true := by
  unfold tool_move_object
  split
  · exact h
  · rename_i zk heq
    split
    · show (moPick st oid).2.stopped = true
      rw [moPick_stopped_inv]
      exact h
    · split
      · show (moPlace st oid zk p).2.stopped = true
        rw [moPlace_stopped_inv]
        exact h
      · show (moPlace st oid zk p).2.stopped = true
        rw [moPlace_stopped_inv]
        exact h

lemma tool_call_stopped (st : ServerState) (name : String) (args : List (String × Value))
    (h : st.bridge.stopped = true) : (tool_call st name args).2.bridge.stopped = true := by
  unfold tool_call
  split
  · exact h
  split
  · split
    · exact h
    · show (st.bridge.set_speed _).2.stopped = true
      rw [set_speed_stopped]
      exact h
  split
  · exact stop_stopped st.bridge
  split
  · split
    · exact h
    · show (st.bridge.pick _ _).2.stopped = true
      rw [pick_stopped_inv]
      exact h
  split
  · exact tool_place_stopped st _ _ h
  split
  · exact tool_move_object_stopped st _ _ _ h
  split
  · exact h
  · exact h

lemma applyTools_stopped (st : ServerState) (rs : List ToolReq)
    (h : st.bridge.stopped = true) : (applyTools st rs).bridge.stopped = true := by
  induction rs generalizing st with
  | nil => exact h
  | cons r rest ih => exact ih (applyTool st r) (tool_call_stopped st r.name r.args h)

/-! ## Persistence lookup lemmas -/

lemma find?_map_set (objects : List (String × PoseDict)) (id : String) (p : PoseDict)
    (hany : objects.any (fun kv => kv.1 == id) = true) :
    ((objects.map (fun kv => if kv.1 == id then (kv.1, p) else kv)).find?
      (fun kv => kv.1 == id)).map Prod.snd = some p := by
  induction objects with
  | nil => simp at hany
  | cons a l ih =>
    by_cases ha : a.1 == id
    · simp only [List.map_cons, if_pos ha]
      rw [List.find?_cons_of_pos _ (by simpa using ha)]
      rfl
    · simp only [List.map_cons, if_neg ha]
      rw [List.find?_cons_of_neg _ (by simpa using ha)]
      refine ih ?_
      simpa [ha] using hany

lemma find?_append_new (objects : List (String × PoseDict)) (id : String) (p : PoseDict)
    (hnone : objects.any (fun kv => kv.1 == id) = false) :
    (((objects ++ [(id, p)]).find? (fun kv => kv.1 == id)).map Prod.snd) = some p := by
  induction objects with
  | nil =>
    rw [List.nil_append, List.find?_cons_of_pos _ (by simp)]
    rfl
  | cons a l ih =>
    have ha : (a.1 == id) = false := by
      by_contra hcon
      simp [List.any_cons] at hnone
      exact absurd hnone.1 (by simpa using hcon)
    rw [List.cons_append, List.find?_cons_of_neg _ (by simp [ha])]
    refine ih ?_
    simpa [ha] using hnone

lemma objectPose_after_set (s : Settings) (id : String) (p : PoseDict) :
    objectPose { s with objects := setObjectPose s.objects id p } id = some p := by
  unfold objectPose setObjectPose
  by_cases hany : s.objects.any (fun kv => kv.1 == id)
  · rw [if_pos hany]
    exact find?_map_set s.objects id p hany
  · rw [if_neg hany]
    exact find?_append_new s.objects id p (Bool.eq_false_iff.mpr hany)

/-! ## Character-class and list lemmas for zone resolution -/

lemma pyIsSpace_iff {c : Char} :
    pyIsSpace c = true ↔
      (c.toNat = 32 ∨ c.toNat = 9 ∨ c.toNat = 10 ∨ c.toNat = 11 ∨ c.toNat = 12 ∨
       c.toNat = 13) := by
  simp [pyIsSpace, or_assoc]

lemma pyIsDigit_iff {c : Char} : pyIsDigit c = true ↔ 48 ≤ c.toNat ∧ c.toNat ≤ 57 := by
  simp [pyIsDigit]

lemma ciLetter_iff {lo up : Nat} {c : Char} :
    ciLetter lo up c = true ↔ c.toNat = lo ∨ c.toNat = up := by
  simp [ciLetter]

lemma space_not_digit {c : Char} (h : pyIsSpace c = true) : pyIsDigit c = false := by
  rw [Bool.eq_false_iff]
  intro hd
  rw [pyIsSpace_iff] at h
  rw [pyIsDigit_iff] at hd
  rcases h with h | h | h | h | h | h <;> omega

lemma digit_not_space {c : Char} (h : pyIsDigit c = true) : pyIsSpace c = false := by
  rw [Bool.eq_false_iff]
  intro hs
  rw [pyIsDigit_iff] at h
  rw [pyIsSpace_iff] at hs
  rcases hs with hs | hs | hs | hs | hs | hs <;> omega

lemma digit_not_zLetter {c : Char} (h : pyIsDigit c = true) : ciLetter 122 90 c = false := by
  rw [Bool.eq_false_iff]
  intro hz
  rw [pyIsDigit_iff] at h
  rw [ciLetter_iff] at hz
  rcases hz with hz | hz <;> omega

lemma zLetter_not_space {c : Char} (h : ciLetter 122 90 c = true) : pyIsSpace c = false := by
  rw [Bool.eq_false_iff]
  intro hs
  rw [ciLetter_iff] at h
  rw [pyIsSpace_iff] at hs
  rcases h with h | h <;> rcases hs with hs | hs | hs | hs | hs | hs <;> omega

lemma dropWhile_append_of_all {p : Char → Bool} {l1 l2 : List Char}
    (h : ∀ c ∈ l1, p c = true) : (l1 ++ l2).dropWhile p = l2.dropWhile p := by
  induction l1 with
  | nil => rfl
  | cons a l ih =>
    rw [List.cons_append, List.dropWhile_cons_of_pos (h a (List.mem_cons_self a l))]
    exact ih fun c hc => h c (List.mem_cons_of_mem a hc)

lemma takeWhile_append_of_all {p : Char → Bool} {l1 l2 : List Char}
    (h : ∀ c ∈ l1, p c = true) : (l1 ++ l2).takeWhile p = l1 ++ l2.takeWhile p := by
  induction l1 with
  | nil => rfl
  | cons a l ih =>
    rw [List.cons_append, List.takeWhile_cons_of_pos (h a (List.mem_cons_self a l)),
      ih fun c hc => h c (List.mem_cons_of_mem a hc), List.cons_append]

lemma dropWhile_cons_false {p : Char → Bool} {a : Char} {l : List Char} (h : p a = false) :
    (a :: l).dropWhile p = a :: l :=
  List.dropWhile_cons_of_neg (by simp [h])

lemma takeWhile_eq_nil_of_all_false {p : Char → Bool} {l : List Char}
    (h : ∀ c ∈ l, p c = false) : l.takeWhile p = [] := by
  cases l with
  | nil => rfl
  | cons a t => exact List.takeWhile_cons_of_neg (by simp [h a (List.mem_cons_self a t)])

lemma dropWhile_eq_self_of_all_false {p : Char → Bool} {l : List Char}
    (h : ∀ c ∈ l, p c = false) : l.dropWhile p = l := by
  cases l with
  | nil => rfl
  | cons a t => exact List.dropWhile_cons_of_neg (by simp [h a (List.mem_cons_self a t)])

/-- Splitting a digit run followed by whitespace. -/
lemma digits_then_spaces {ds w3 : List Char} (hds : ∀ c ∈ ds, pyIsDigit c = true)
    (hw3 : ∀ c ∈ w3, pyIsSpace c = true) :
    (ds ++ w3).takeWhile pyIsDigit = ds ∧ (ds ++ w3).dropWhile pyIsDigit = w3 := by
  constructor
  · rw [takeWhile_append_of_all hds,
      takeWhile_eq_nil_of_all_false fun c hc => space_not_digit (hw3 c hc), List.append_nil]
  · rw [dropWhile_append_of_all hds,
      dropWhile_eq_self_of_all_false fun c hc => space_not_digit (hw3 c hc)]

lemma matchesZoneWord_false_of_head {c : Char} {l : List Char}
    (h : ciLetter 122 90 c = false) : matchesZoneWord (c :: l) = false := by
  rcases l with _ | ⟨a, _ | ⟨b, _ | ⟨d, r⟩⟩⟩ <;> simp [matchesZoneWord, h]

lemma afterZoneWord_of_not_match {cs : List Char} (h : matchesZoneWord cs = false) :
    afterZoneWord cs = cs := by
  simp [afterZoneWord, h]

lemma afterZoneWord_of_match {c1 c2 c3 c4 : Char} {r : List Char}
    (h1 : ciLetter 122 90 c1 = true) (h2 : ciLetter 111 79 c2 = true)
    (h3 : ciLetter 110 78 c3 = true) (h4 : ciLetter 101 69 c4 = true) :
    afterZoneWord (c1 :: c2 :: c3 :: c4 :: r) = r.dropWhile pyIsSpace := by
  simp [afterZoneWord, matchesZoneWord, h1, h2, h3, h4]

lemma matchesZoneWord_shape {cs : List Char} (h : matchesZoneWord cs = true) :
    ∃ c1 c2 c3 c4 r, cs = c1 :: c2 :: c3 :: c4 :: r ∧
      ciLetter 122 90 c1 = true ∧ ciLetter 111 79 c2 = true ∧
      ciLetter 110 78 c3 = true ∧ ciLetter 101 69 c4 = true := by
  rcases cs with _ | ⟨c1, _ | ⟨c2, _ | ⟨c3, _ | ⟨c4, r⟩⟩⟩⟩ <;>
    simp [matchesZoneWord] at h
  exact ⟨c1, c2, c3, c4, r, rfl, h.1.1.1, h.1.1.2, h.1.2, h.2⟩

/-! ## The ordinal parser agrees with the spec's pattern description -/

lemma parseOrdinal_complete {name : String} {n : Nat} (h : OrdinalRef name n) :
    parseOrdinal name = some n := by
  obtain ⟨w1, z, w2, ds, w3, hdata, hw1, hz, hw2, hne, hds, hw3, hn⟩ := h
  obtain ⟨d, ds2, hdcons⟩ : ∃ d ds2, ds = d :: ds2 := by
    cases ds with
    | nil => exact absurd rfl hne
    | cons d ds2 => exact ⟨d, ds2, rfl⟩
  have hd : pyIsDigit d = true := hds d (by rw [hdcons]; exact List.mem_cons_self d ds2)
  have htail : (ds ++ w3).takeWhile pyIsDigit = ds ∧ (ds ++ w3).dropWhile pyIsDigit = w3 :=
    digits_then_spaces hds hw3
  have hdsw3 : (ds ++ w3).dropWhile pyIsSpace = ds ++ w3 := by
    rw [hdcons, List.cons_append]
    exact dropWhile_cons_false (digit_not_space hd)
  unfold parseOrdinal
  rw [hdata]
  simp only [List.append_assoc]
  rcases hz with hz0 | ⟨c1, c2, c3, c4, hz4, hc1, hc2, hc3, hc4⟩
  · subst hz0
    rw [List.nil_append, dropWhile_append_of_all hw1, dropWhile_append_of_all hw2, hdsw3,
      afterZoneWord_of_not_match (by
        rw [hdcons, List.cons_append]
        exact matchesZoneWord_false_of_head (digit_not_zLetter hd)),
      htail.1, htail.2,
      if_pos ⟨hne, List.all_eq_true.mpr hw3⟩, hn]
  · subst hz4
    rw [dropWhile_append_of_all hw1]
    rw [show ((c1 :: c2 :: c3 :: c4 :: ([] : List Char)) ++ (w2 ++ (ds ++ w3))) =
          c1 :: c2 :: c3 :: c4 :: (w2 ++ (ds ++ w3)) from rfl]
    rw [dropWhile_cons_false (zLetter_not_space hc1),
      afterZoneWord_of_match hc1 hc2 hc3 hc4,
      dropWhile_append_of_all hw2, hdsw3, htail.1, htail.2,
      if_pos ⟨hne, List.all_eq_true.mpr hw3⟩, hn]

lemma parseOrdinal_sound {name : String} {n : Nat} (h : parseOrdinal name = some n) :
    OrdinalRef name n := by
  unfold parseOrdinal at h
  split at h
  case isFalse => exact absurd h (by simp)
  case isTrue hcond =>
    injection h with hval
    have hsplit1 : name.data = name.data.takeWhile pyIsSpace ++
        name.data.dropWhile pyIsSpace :=
      (List.takeWhile_append_dropWhile pyIsSpace name.data).symm
    have hw1 : ∀ c ∈ name.data.takeWhile pyIsSpace, pyIsSpace c = true :=
      fun c hc => List.mem_takeWhile_imp hc
    by_cases hm : matchesZoneWord (name.data.dropWhile pyIsSpace) = true
    · obtain ⟨c1, c2, c3, c4, r, hshape, hc1, hc2, hc3, hc4⟩ := matchesZoneWord_shape hm
      have hafter : afterZoneWord (name.data.dropWhile pyIsSpace) = r.dropWhile pyIsSpace := by
        rw [hshape]
        exact afterZoneWord_of_match hc1 hc2 hc3 hc4
      rw [hafter] at hcond hval
      refine ⟨name.data.takeWhile pyIsSpace, [c1, c2, c3, c4], r.takeWhile pyIsSpace,
        (r.dropWhile pyIsSpace).takeWhile pyIsDigit,
        (r.dropWhile pyIsSpace).dropWhile pyIsDigit, ?_, hw1,
        Or.inr ⟨c1, c2, c3, c4, rfl, hc1, hc2, hc3, hc4⟩,
        fun c hc => List.mem_takeWhile_imp hc, hcond.1,
        fun c hc => List.mem_takeWhile_imp hc, List.all_eq_true.mp hcond.2, hval.symm⟩
      conv_lhs => rw [hsplit1, hshape]
      simp only [List.append_assoc, List.append_cancel_left_eq]
      show c1 :: c2 :: c3 :: c4 :: r =
        [c1, c2, c3, c4] ++ (r.takeWhile pyIsSpace ++
          ((r.dropWhile pyIsSpace).takeWhile pyIsDigit ++
           (r.dropWhile pyIsSpace).dropWhile pyIsDigit))
      rw [List.takeWhile_append_dropWhile, List.takeWhile_append_dropWhile]
      rfl
    · have hm2 : matchesZoneWord (name.data.dropWhile pyIsSpace) = false :=
        Bool.eq_false_iff.mpr hm
      have hafter : afterZoneWord (name.data.dropWhile pyIsSpace) =
          name.data.dropWhile pyIsSpace := afterZoneWord_of_not_match hm2
      rw [hafter] at hcond hval
      refine ⟨name.data.takeWhile pyIsSpace, [], [],
        (name.data.dropWhile pyIsSpace).takeWhile pyIsDigit,
        (name.data.dropWhile pyIsSpace).dropWhile pyIsDigit, ?_, hw1, Or.inl rfl,
        (by intro c hc; cases hc), hcond.1,
        fun c hc => List.mem_takeWhile_imp hc, List.all_eq_true.mp hcond.2, hval.symm⟩
      conv_lhs => rw [hsplit1]
      simp only [List.append_assoc, List.nil_append, List.append_cancel_left_eq]
      exact (List.takeWhile_append_dropWhile pyIsDigit _).symm

/-! ## Claim theorems -/

/-- C2: `stop()` always succeeds, sets `stopped` to true, unconditionally
clears `held_object` (whatever was held before), and records
`last_action = "stop"`; afterwards — including after any further sequence of
bridge operations — every `pick` fails with error kind `stopped`. -/
theorem stop_spec (b : MockBridge) :
    b.stop.1 = BridgeResult.success ∧
    b.stop.2.stopped = true ∧
    b.stop.2.held_object = none ∧
    b.stop.2.last_action = "stop" ∧
    ∀ ops oid g, ((applyBridgeOps b.stop.2 ops).pick oid g).1 = BridgeResult.fail "stopped" := by
  refine ⟨rfl, rfl, rfl, rfl, ?_⟩
  intro ops oid g
  rw [pick_of_stopped _ oid g (applyBridgeOps_stopped _ ops rfl)]

/-- C6: `set_speed(scale)` fails with `scale_out_of_range` and leaves the
whole bridge state unchanged whenever `scale` lies outside `[0.1, 1.0]`;
inside the band it succeeds, updates `speed_scale` to `scale`, and records
`last_action` — with no condition on `stopped`. -/
theorem set_speed_spec (b : MockBridge) (scale : Rat) :
    (¬ (mkRat 1 10 ≤ scale ∧ scale ≤ 1) →
      b.set_speed scale = (BridgeResult.fail "scale_out_of_range", b)) ∧
    (mkRat 1 10 ≤ scale ∧ scale ≤ 1 →
      b.set_speed scale =
        (BridgeResult.success,
         { b with speed_scale := scale, last_action := "set_speed:" ++ formatRat2 scale })) := by
  constructor <;> intro h <;> simp [MockBridge.set_speed, h]

/-- Witness for C6: setting the sample bridge's speed to 0.5 succeeds and
updates the state as `set_speed_spec` states. -/
theorem set_speed_spec_witness :
    (mkRat 1 10 ≤ mkRat 1 2 ∧ mkRat 1 2 ≤ 1) ∧
    sampleBridge.set_speed (mkRat 1 2) =
      (BridgeResult.success,
       { sampleBridge with
         speed_scale := mkRat 1 2,
         last_action := "set_speed:" ++ formatRat2 (mkRat 1 2) }) :=
  ⟨by decide, (set_speed_spec sampleBridge (mkRat 1 2)).2 (by decide)⟩

/-- C8: on a running bridge, `pick` then `pick` with no intervening `place`
succeeds both times, and the bridge ends up holding the second object id:
re-picking silently overwrites the previous hold. -/
theorem pick_twice_overwrites (b : MockBridge) (o1 o2 : String) (g1 g2 : Rat)
    (h : b.stopped = false) :
    (b.pick o1 g1).1.ok = true ∧
    ((b.pick o1 g1).2.pick o2 g2).1.ok = true ∧
    ((b.pick o1 g1).2.pick o2 g2).2.held_object = some o2 := by
  simp [MockBridge.pick, h, BridgeResult.success]

/-- Witness for C8 on the sample bridge. -/
theorem pick_twice_overwrites_witness :
    sampleBridge.stopped = false ∧
    ((sampleBridge.pick "red_cube" 1).1.ok = true ∧
     ((sampleBridge.pick "red_cube" 1).2.pick "blue_cube" 1).1.ok = true ∧
     ((sampleBridge.pick "red_cube" 1).2.pick "blue_cube" 1).2.held_object = some "blue_cube") :=
  ⟨by decide, pick_twice_overwrites sampleBridge "red_cube" "blue_cube" 1 1 (by decide)⟩

/-- C10: whenever `set_speed`, `pick` or `place` reports `ok = false`, the
bridge state afterwards is exactly the state before the call — no field, not
even `last_action`, was touched. -/
theorem failed_bridge_ops_atomic (b : MockBridge) (scale : Rat) (oid : String) (g : Rat)
    (target : Option String) (pose : Option PoseDict) :
    ((b.set_speed scale).1.ok = false → (b.set_speed scale).2 = b) ∧
    ((b.pick oid g).1.ok = false → (b.pick oid g).2 = b) ∧
    ((b.place target pose).1.ok = false → (b.place target pose).2 = b) := by
  refine ⟨?_, ?_, ?_⟩ <;> intro h
  · rcases set_speed_result_cases b scale with hc | hc <;> rw [hc] at h ⊢ <;>
      first
      | rfl
      | simp [BridgeResult.success] at h
  · rcases pick_result_cases b oid g with hc | hc <;> rw [hc] at h ⊢ <;>
      first
      | rfl
      | simp [BridgeResult.success] at h
  · rcases place_result_cases b target pose with hc | hc | hc | hc | hc <;> rw [hc] at h ⊢ <;>
      first
      | rfl
      | simp [placedResult] at h

/-- Witness for C10: an out-of-range `set_speed` on the sample bridge leaves
it untouched. -/
theorem failed_bridge_ops_atomic_witness :
    (sampleBridge.set_speed 2).1.ok = false ∧ (sampleBridge.set_speed 2).2 = sampleBridge :=
  ⟨by decide, (failed_bridge_ops_atomic sampleBridge 2 "x" 1 none none).1 (by decide)⟩

/-- C3: `place` checks its failure modes in exactly the order stopped,
no-object-held, target-or-pose-required, unknown-zone; in every remaining
case it succeeds, clears `held_object`, and returns the previously held
object, the target zone key (or none) and the pose.  Each failing case
leaves the bridge unchanged. -/
theorem place_error_precedence (b : MockBridge) (target : Option String)
    (pose : Option PoseDict) :
    (b.stopped = true → b.place target pose = (BridgeResult.fail "stopped", b)) ∧
    (b.stopped = false → b.held_object = none →
      b.place target pose = (BridgeResult.fail "no_object_held", b)) ∧
    (b.stopped = false → b.held_object ≠ none → target = none → pose = none →
      b.place target pose = (BridgeResult.fail "target_or_pose_required", b)) ∧
    (b.stopped = false → b.held_object ≠ none → target.isSome = true →
      targetKnown b target = false →
      b.place target pose = (BridgeResult.fail "unknown_zone", b)) ∧
    (b.stopped = false → b.held_object ≠ none → ¬ (target = none ∧ pose = none) →
      targetKnown b target = true →
      b.place target pose = (placedResult b target pose, placedState b target)) := by
  refine ⟨?_, ?_, ?_, ?_, ?_⟩
  · intro hs
    simp [MockBridge.place, hs]
  · intro hs hh
    simp [MockBridge.place, hs, hh]
  · intro hs hh ht hp
    subst ht; subst hp
    simp [MockBridge.place, hs, hh]
  · intro hs hh ht hk
    cases target with
    | none => simp at ht
    | some t =>
      simp only [targetKnown] at hk
      unfold MockBridge.place
      rw [if_neg (by simp [hs]), if_neg hh, if_neg (by simp),
        if_pos (by simp only [placeUnknownZone, hk, Bool.not_false])]
  · intro hs hh htp hk
    cases target with
    | none =>
      have hp : ¬ pose = none := fun hp => htp ⟨rfl, hp⟩
      unfold MockBridge.place
      rw [if_neg (by simp [hs]), if_neg hh, if_neg (by simp [hp]),
        if_neg (by simp only [placeUnknownZone]; decide)]
      rfl
    | some t =>
      simp only [targetKnown] at hk
      unfold MockBridge.place
      rw [if_neg (by simp [hs]), if_neg hh, if_neg (by simp),
        if_neg (by simp only [placeUnknownZone, hk, Bool.not_true]; decide)]
      rfl

/-- Witness for C3: placing the held `red_cube` into `zone_a` on the sample
bridge succeeds with the stated result and cleared hold. -/
theorem place_error_precedence_witness :
    (heldBridge.stopped = false ∧ heldBridge.held_object ≠ none ∧
     ¬ ((some "zone_a" : Option String) = none ∧ (none : Option PoseDict) = none) ∧
     targetKnown heldBridge (some "zone_a") = true) ∧
    heldBridge.place (some "zone_a") none =
      (placedResult heldBridge (some "zone_a") none, placedState heldBridge (some "zone_a")) :=
  ⟨⟨by decide, by decide, by decide, by decide⟩,
   (place_error_precedence heldBridge (some "zone_a") none).2.2.2.2
     (by decide) (by decide) (by decide) (by decide)⟩

/-- C7: once `stopped` is true it stays true through every sequence of
bridge operations and every sequence of dispatched actions (which are built
on them) — nothing in the vocabulary resets it. -/
theorem stopped_is_permanent (b : MockBridge) (ops : List BridgeOp) (st : ServerState)
    (rs : List ToolReq) (hb : b.stopped = true) (hst : st.bridge.stopped = true) :
    (applyBridgeOps b ops).stopped = true ∧ (applyTools st rs).bridge.stopped = true :=
  ⟨applyBridgeOps_stopped b ops hb, applyTools_stopped st rs hst⟩

/-- Witness for C7: a concrete mixed workload after a stop leaves both the
bridge and the dispatched server stopped. -/
theorem stopped_is_permanent_witness :
    stoppedBridge.stopped = true ∧ stoppedServer.bridge.stopped = true ∧
    ((applyBridgeOps stoppedBridge
        [BridgeOp.speed 1, BridgeOp.pick "a" 1, BridgeOp.place (some "zone_a") none,
         BridgeOp.status]).stopped = true ∧
     (applyTools stoppedServer
        [⟨"pick", [("object_id", Value.vstr "a")]⟩, ⟨"set_speed", [("scale", Value.num 1)]⟩,
         ⟨"move_object", [("object_id", Value.vstr "a"), ("target", Value.vstr "1")]⟩,
         ⟨"query_status", []⟩]).bridge.stopped = true) :=
  ⟨rfl, rfl,
   stopped_is_permanent stoppedBridge
     [BridgeOp.speed 1, BridgeOp.pick "a" 1, BridgeOp.place (some "zone_a") none,
      BridgeOp.status]
     stoppedServer
     [⟨"pick", [("object_id", Value.vstr "a")]⟩, ⟨"set_speed", [("scale", Value.num 1)]⟩,
      ⟨"move_object", [("object_id", Value.vstr "a"), ("target", Value.vstr "1")]⟩,
      ⟨"query_status", []⟩]
     (by decide) (by decide)⟩

/-- C5: a `move_object` whose target fails zone resolution returns
`unknown_zone` and the entire server state — bridge fields including
`last_action`, and the settings — is exactly what it was before the call:
the bridge is never invoked. -/
theorem move_object_unresolvable (st : ServerState) (object_id : String) (t : String)
    (pose : Option PoseDict) (h : resolve_zone_key st.settings t = none) :
    tool_move_object st object_id (some t) pose =
      (ToolCallResult.response { ok := false, result := none, error := some "unknown_zone" },
       st) := by
  have hres : resolveTarget st.settings (some t) = none := by
    show (match resolve_zone_key st.settings t with
          | some k => some (some k)
          | none => none) = none
    rw [h]
  unfold tool_move_object
  rw [hres]

/-- Witness for C5: `"nowhere"` does not resolve on the sample settings and
the dispatched `move_object` leaves the server state untouched. -/
theorem move_object_unresolvable_witness :
    resolve_zone_key sampleSettings "nowhere" = none ∧
    tool_move_object sampleServer "some_object" (some "nowhere") none =
      (ToolCallResult.response { ok := false, result := none, error := some "unknown_zone" },
       sampleServer) :=
  ⟨by decide, move_object_unresolvable sampleServer "some_object" "nowhere" none (by decide)⟩

/-- C1: with a resolvable (or absent) target, `move_object` performs the
pick first; a failing pick (which happens exactly when the bridge is
stopped) is returned as the overall failure with no placement attempted and
the state untouched; on a successful pick, `place`'s result is the overall
result, augmented on success with `new_pose` — the settings zone's center
pose when placed by zone, the literal pose otherwise (`newPoseFor`) — the
same pose is persisted for the object in the settings, and `held_object`
is back to none. -/
theorem move_object_dispatch_spec (st : ServerState) (object_id : String)
    (target : Option String) (pose : Option PoseDict) (zone_key : Option String)
    (h : resolveTarget st.settings target = some zone_key) :
    (st.bridge.stopped = true →
      tool_move_object st object_id target pose =
        (ToolCallResult.response { ok := false, result := none, error := some "stopped" },
         st)) ∧
    (st.bridge.stopped = false →
      ((moPlace st object_id zone_key pose).1.ok = false →
        tool_move_object st object_id target pose =
          (ToolCallResult.response
             { ok := false,
               result := some (ResultPayload.bridge (moPlace st object_id zone_key pose).1),
               error := (moPlace st object_id zone_key pose).1.error },
           { st with bridge := (moPlace st object_id zone_key pose).2 })) ∧
      ((moPlace st object_id zone_key pose).1.ok = true →
        tool_move_object st object_id target pose =
          (ToolCallResult.response
             { ok := true,
               result := some (ResultPayload.bridge
                 { (moPlace st object_id zone_key pose).1 with
                   new_pose := some (newPoseFor st.settings zone_key pose) }),
               error := none },
           { settings :=
               { st.settings with
                 objects :=
                   setObjectPose st.settings.objects object_id
                     (newPoseFor st.settings zone_key pose) },
             bridge := (moPlace st object_id zone_key pose).2 }) ∧
        (moPlace st object_id zone_key pose).2.held_object = none ∧
        objectPose (tool_move_object st object_id target pose).2.settings object_id =
          some (newPoseFor st.settings zone_key pose))) := by
  have hmatch :
      tool_move_object st object_id target pose =
        if (moPick st object_id).1.ok = false then
          (ToolCallResult.response
             { ok := false, result := none, error := (moPick st object_id).1.error },
           { st with bridge := (moPick st object_id).2 })
        else if (moPlace st object_id zone_key pose).1.ok = true then
          (ToolCallResult.response
             { ok := true,
               result := some (ResultPayload.bridge
                 { (moPlace st object_id zone_key pose).1 with
                   new_pose := some (newPoseFor st.settings zone_key pose) }),
               error := (moPlace st object_id zone_key pose).1.error },
           { settings :=
               { st.settings with
                 objects :=
                   setObjectPose st.settings.objects object_id
                     (newPoseFor st.settings zone_key pose) },
             bridge := (moPlace st object_id zone_key pose).2 })
        else
          (ToolCallResult.response
             { ok := false,
               result := some (ResultPayload.bridge (moPlace st object_id zone_key pose).1),
               error := (moPlace st object_id zone_key pose).1.error },
           { st with bridge := (moPlace st object_id zone_key pose).2 }) := by
    unfold tool_move_object
    rw [h]
  refine ⟨?_, ?_⟩
  · intro hs
    have hp : moPick st object_id = (BridgeResult.fail "stopped", st.bridge) := by
      unfold moPick
      exact pick_of_stopped st.bridge object_id (mkRat 6 10) hs
    rw [hmatch, hp]
    rfl
  · intro hs
    have hp :
        moPick st object_id =
          (BridgeResult.success,
           { st.bridge with
             held_object := some object_id, last_action := "pick:" ++ object_id }) := by
      unfold moPick
      exact pick_of_running st.bridge object_id (mkRat 6 10) hs
    constructor
    · intro h2
      rw [hmatch, hp, if_neg (by simp [BridgeResult.success]), if_neg (by simp [h2])]
    · intro h2
      have hok2 : ((moPick st object_id).2.place zone_key pose).1.ok = true := h2
      have hplaced := place_ok_eq (moPick st object_id).2 zone_key pose hok2
      have herr : (moPlace st object_id zone_key pose).1.error = none := by
        show ((moPick st object_id).2.place zone_key pose).1.error = none
        rw [hplaced]
        rfl
      have hheld : (moPlace st object_id zone_key pose).2.held_object = none := by
        show ((moPick st object_id).2.place zone_key pose).2.held_object = none
        rw [hplaced]
        rfl
      have hmain :
          tool_move_object st object_id target pose =
            (ToolCallResult.response
               { ok := true,
                 result := some (ResultPayload.bridge
                   { (moPlace st object_id zone_key pose).1 with
                     new_pose := some (newPoseFor st.settings zone_key pose) }),
                 error := none },
             { settings :=
                 { st.settings with
                   objects :=
                     setObjectPose st.settings.objects object_id
                       (newPoseFor st.settings zone_key pose) },
               bridge := (moPlace st object_id zone_key pose).2 }) := by
        rw [hmatch, hp, if_neg (by simp [BridgeResult.success]), if_pos h2, herr]
      refine ⟨hmain, hheld, ?_⟩
      rw [hmain]
      exact objectPose_after_set st.settings object_id (newPoseFor st.settings zone_key pose)

/-- Witness for C1: `move_object("red_cube", target="1")` on the sample
server (zone_a first declared): the instantiated dispatch specification. -/
theorem move_object_dispatch_spec_witness :
    resolveTarget sampleServer.settings (some "1") = some (some "zone_a") ∧
    ((sampleServer.bridge.stopped = true →
      tool_move_object sampleServer "red_cube" (some "1") none =
        (ToolCallResult.response { ok := false, result := none, error := some "stopped" },
         sampleServer)) ∧
    (sampleServer.bridge.stopped = false →
      ((moPlace sampleServer "red_cube" (some "zone_a") none).1.ok = false →
        tool_move_object sampleServer "red_cube" (some "1") none =
          (ToolCallResult.response
             { ok := false,
               result := some (ResultPayload.bridge
                 (moPlace sampleServer "red_cube" (some "zone_a") none).1),
               error := (moPlace sampleServer "red_cube" (some "zone_a") none).1.error },
           { sampleServer with
             bridge := (moPlace sampleServer "red_cube" (some "zone_a") none).2 })) ∧
      ((moPlace sampleServer "red_cube" (some "zone_a") none).1.ok = true →
        tool_move_object sampleServer "red_cube" (some "1") none =
          (ToolCallResult.response
             { ok := true,
               result := some (ResultPayload.bridge
                 { (moPlace sampleServer "red_cube" (some "zone_a") none).1 with
                   new_pose :=
                     some (newPoseFor sampleServer.settings (some "zone_a") none) }),
               error := none },
           { settings :=
               { sampleServer.settings with
                 objects :=
                   setObjectPose sampleServer.settings.objects "red_cube"
                     (newPoseFor sampleServer.settings (some "zone_a") none) },
             bridge := (moPlace sampleServer "red_cube" (some "zone_a") none).2 }) ∧
        (moPlace sampleServer "red_cube" (some "zone_a") none).2.held_object = none ∧
        objectPose (tool_move_object sampleServer "red_cube" (some "1") none).2.settings
            "red_cube" =
          some (newPoseFor sampleServer.settings (some "zone_a") none)))) :=
  ⟨by decide,
   move_object_dispatch_spec sampleServer "red_cube" (some "1") none (some "zone_a")
     (by decide)⟩

/-! ## Error-reporting lemmas for the dispatcher -/

lemma tool_place_error_reporting (st : ServerState) (t : Option String)
    (p : Option PoseDict) (r : ToolCallResponse) (st2 : ServerState)
    (heq : tool_place st t p = (ToolCallResult.response r, st2)) (hok : r.ok = false) :
    r.error.isSome = true := by
  unfold tool_place at heq
  split at heq
  · injection heq with h1 h2
    injection h1 with h3
    subst h3
    rfl
  · injection heq with h1 h2
    injection h1 with h3
    subst h3
    exact place_fail_error _ _ _ hok

lemma tool_move_object_error_reporting (st : ServerState) (oid : String)
    (t : Option String) (p : Option PoseDict) (r : ToolCallResponse) (st2 : ServerState)
    (heq : tool_move_object st oid t p = (ToolCallResult.response r, st2))
    (hok : r.ok = false) : r.error.isSome = true := by
  unfold tool_move_object at heq
  split at heq
  · injection heq with h1 h2
    injection h1 with h3
    subst h3
    rfl
  · rename_i zk hres
    split at heq
    · rename_i hpickfail
      injection heq with h1 h2
      injection h1 with h3
      subst h3
      show ((st.bridge.pick oid (mkRat 6 10)).1.error).isSome = true
      rw [pick_fail_error st.bridge oid (mkRat 6 10) hpickfail]
      rfl
    · split at heq
      · injection heq with h1 h2
        injection h1 with h3
        subst h3
        simp at hok
      · rename_i hplnotok
        injection heq with h1 h2
        injection h1 with h3
        subst h3
        exact place_fail_error (moPick st oid).2 zk p (Bool.eq_false_iff.mpr hplnotok)

/-- C9 (amended): every failure the dispatcher reports through a
`ToolCallResponse` carries an error kind, and unknown action names yield
`unknown_tool`; but a missing required argument — `set_speed` without
`scale` — is re-raised as an HTTP 400 error (`HTTPException`), with bridge
and settings untouched, rather than returned as an `{ok: false, error}`
response. -/
theorem dispatcher_error_reporting (st : ServerState) (name : String)
    (args : List (String × Value)) :
    (name = "set_speed" → lookupArg args "scale" = none →
      tool_call st name args = (ToolCallResult.httpError 400 floatOfNoneMsg, st)) ∧
    (¬ name ∈ toolNames →
      tool_call st name args =
        (ToolCallResult.response { ok := false, result := none, error := some "unknown_tool" },
         st)) ∧
    (∀ r st2, tool_call st name args = (ToolCallResult.response r, st2) → r.ok = false →
      r.error.isSome = true) := by
  refine ⟨?_, ?_, ?_⟩
  · intro h1 h2
    subst h1
    unfold tool_call
    rw [if_neg (by decide), if_pos rfl, h2]
    rfl
  · intro h
    simp only [toolNames, List.mem_cons, List.not_mem_nil, or_false] at h
    push_neg at h
    obtain ⟨n1, n2, n3, n4, n5, n6, n7⟩ := h
    unfold tool_call
    rw [if_neg n1, if_neg n2, if_neg n3, if_neg n4, if_neg n5, if_neg n6, if_neg n7]
  · intro r st2 heq hok
    unfold tool_call at heq
    split at heq
    · injection heq with h1 h2
      injection h1 with h3
      subst h3
      simp at hok
    split at heq
    · split at heq
      · simp_all
      · injection heq with h1 h2
        injection h1 with h3
        subst h3
        exact set_speed_fail_error st.bridge _ hok
    split at heq
    · injection heq with h1 h2
      injection h1 with h3
      subst h3
      simp [MockBridge.stop, BridgeResult.success] at hok
    split at heq
    · split at heq
      · simp_all
      · injection heq with h1 h2
        injection h1 with h3
        subst h3
        show ((st.bridge.pick (pyStrOpt (lookupArg args "object_id")) _).1.error).isSome = true
        rw [pick_fail_error st.bridge _ _ hok]
        rfl
    split at heq
    · exact tool_place_error_reporting st _ _ r st2 heq hok
    split at heq
    · exact tool_move_object_error_reporting st _ _ _ r st2 heq hok
    split at heq
    · injection heq with h1 h2
      injection h1 with h3
      subst h3
      simp at hok
    · injection heq with h1 h2
      injection h1 with h3
      subst h3
      rfl

/-- Counterexample for C9 as frozen: the failure of `set_speed` with no
`scale` argument is not returned as an `{ok: false, error: kind}` response —
the dispatcher's `except` handler re-raises it as `HTTPException(400, ...)`
(the `httpError` constructor, disjoint from `response`). -/
theorem dispatcher_error_counterexample :
    tool_call sampleServer "set_speed" [] =
      (ToolCallResult.httpError 400 floatOfNoneMsg, sampleServer) := by
  decide

/-- Witness for C9 (amended): an unknown action name on the sample server is
answered with `unknown_tool`. -/
theorem dispatcher_error_reporting_witness :
    tool_call sampleServer "frobnicate" [] =
      (ToolCallResult.response { ok := false, result := none, error := some "unknown_tool" },
       sampleServer) :=
  (dispatcher_error_reporting sampleServer "frobnicate" []).2.1 (by decide)

/-! ## Zone resolution: remaining lemmas and the C4 theorem -/

lemma ordinalLookup_in_range {settings : Settings} {name : String} {n : Nat}
    (hp : parseOrdinal name = some n) (h1 : 1 ≤ n)
    (h2 : n ≤ (settings.zones.map Prod.fst).length) :
    ordinalLookup settings name = (settings.zones.map Prod.fst)[n - 1]? := by
  unfold ordinalLookup
  rw [hp]
  show (if 1 ≤ n ∧ n ≤ (settings.zones.map Prod.fst).length then
        (settings.zones.map Prod.fst)[n - 1]? else none) = _
  rw [if_pos ⟨h1, h2⟩]

lemma resolve_of_ordinal {settings : Settings} {name : String} {n : Nat}
    (hp : parseOrdinal name = some n) (h1 : 1 ≤ n)
    (h2 : n ≤ (settings.zones.map Prod.fst).length) :
    resolve_zone_key settings name = (settings.zones.map Prod.fst)[n - 1]? := by
  have hlt : n - 1 < (settings.zones.map Prod.fst).length := by omega
  have hgk : (settings.zones.map Prod.fst)[n - 1]? =
      some (settings.zones.map Prod.fst)[n - 1] := List.getElem?_eq_getElem hlt
  unfold resolve_zone_key
  rw [ordinalLookup_in_range hp h1 h2, hgk]

lemma resolve_of_no_ordinal {settings : Settings} {name : String}
    (hord : ordinalLookup settings name = none) :
    resolve_zone_key settings name =
      (settings.zones.map Prod.fst).find?
        (fun key => canonicalize_identifier key == canonicalize_identifier name) := by
  unfold resolve_zone_key
  rw [hord]

/-- C4 (amended): zone resolution returns the key at 1-based position `n`
whenever the reference is an ordinal reference (optional case-insensitive
`zone` prefix, digits `n`, surrounding whitespace) in range; otherwise the
first key whose canonical form equals the canonicalized reference
(not-found when none matches).  In particular `"2"` resolves to the second
declared zone; and `"Zone-1"` resolves the same as `"zone1"` provided the
first declared key canonicalizes to `"zone1"` — in general they differ,
because `"zone1"` takes the ordinal path to the first declared zone while
`"Zone-1"` takes the canonical path. -/
theorem resolve_zone_spec (settings : Settings) (ref : String) (n : Nat) (k0 : String) :
    (OrdinalRef ref n → 1 ≤ n → n ≤ (settings.zones.map Prod.fst).length →
      resolve_zone_key settings ref = (settings.zones.map Prod.fst)[n - 1]?) ∧
    ((¬ ∃ m, OrdinalRef ref m ∧ 1 ≤ m ∧ m ≤ (settings.zones.map Prod.fst).length) →
      resolve_zone_key settings ref =
        (settings.zones.map Prod.fst).find?
          (fun key => canonicalize_identifier key == canonicalize_identifier ref)) ∧
    (2 ≤ settings.zones.length →
      resolve_zone_key settings "2" = (settings.zones.map Prod.fst)[1]?) ∧
    ((settings.zones.map Prod.fst).head? = some k0 →
      canonicalize_identifier k0 = "zone1" →
      resolve_zone_key settings "Zone-1" = resolve_zone_key settings "zone1") := by
  refine ⟨?_, ?_, ?_, ?_⟩
  · intro ho h1 h2
    exact resolve_of_ordinal (parseOrdinal_complete ho) h1 h2
  · intro hno
    refine resolve_of_no_ordinal ?_
    unfold ordinalLookup
    cases hpo : parseOrdinal ref with
    | none => rfl
    | some m =>
      have hom := parseOrdinal_sound hpo
      have hnr : ¬ (1 ≤ m ∧ m ≤ (settings.zones.map Prod.fst).length) :=
        fun hc => hno ⟨m, hom, hc.1, hc.2⟩
      show (if 1 ≤ m ∧ m ≤ (settings.zones.map Prod.fst).length then
            (settings.zones.map Prod.fst)[m - 1]? else none) = none
      rw [if_neg hnr]
  · intro h2z
    have hlen : (settings.zones.map Prod.fst).length = settings.zones.length :=
      List.length_map settings.zones Prod.fst
    exact resolve_of_ordinal (by decide : parseOrdinal "2" = some 2) (by omega)
      (by omega)
  · intro hh hcanon
    cases hkeys : settings.zones.map Prod.fst with
    | nil =>
      rw [hkeys] at hh
      exact absurd hh (by simp)
    | cons a t =>
      rw [hkeys] at hh
      have ha : a = k0 := by
        simpa using hh
      subst ha
      have hresolve1 : resolve_zone_key settings "zone1" = some a := by
        have h1 : resolve_zone_key settings "zone1" =
            (settings.zones.map Prod.fst)[0]? :=
          resolve_of_ordinal (by decide : parseOrdinal "zone1" = some 1) (by omega)
            (by rw [hkeys]; simp)
        rw [h1, hkeys]
        simp
      have hresolve2 : resolve_zone_key settings "Zone-1" = some a := by
        have hord : ordinalLookup settings "Zone-1" = none := by
          unfold ordinalLookup
          rw [show parseOrdinal "Zone-1" = none from by decide]
        rw [resolve_of_no_ordinal hord, hkeys]
        rw [List.find?_cons_of_pos _ (by
          show (canonicalize_identifier a == canonicalize_identifier "Zone-1") = true
          rw [hcanon, show canonicalize_identifier "Zone-1" = "zone1" from by decide]
          simp)]
      rw [hresolve1, hresolve2]

/-- Counterexample for C4 as frozen: on a zone table `["alpha", "zone1"]`
the reference `"zone1"` ordinal-matches (`zone` + digit 1) and resolves to
the first declared key `"alpha"`, while `"Zone-1"` canonical-matches and
resolves to `"zone1"` — so `"Zone-1"` does not resolve the same as
`"zone1"`. -/
theorem resolve_zone_counterexample :
    resolve_zone_key collisionSettings "Zone-1" ≠ resolve_zone_key collisionSettings "zone1" := by
  decide

/-- Witness for C4 (amended): the instantiation at a two-zone table with the
ordinal reference `"zone 2"` (value 2) and first key `"zone_a"`. -/
theorem resolve_zone_spec_witness :
    (OrdinalRef "zone 2" 2 → 1 ≤ 2 → 2 ≤ (twoZoneSettings.zones.map Prod.fst).length →
      resolve_zone_key twoZoneSettings "zone 2" = (twoZoneSettings.zones.map Prod.fst)[2 - 1]?) ∧
    ((¬ ∃ m, OrdinalRef "zone 2" m ∧ 1 ≤ m ∧ m ≤ (twoZoneSettings.zones.map Prod.fst).length) →
      resolve_zone_key twoZoneSettings "zone 2" =
        (twoZoneSettings.zones.map Prod.fst).find?
          (fun key => canonicalize_identifier key == canonicalize_identifier "zone 2")) ∧
    (2 ≤ twoZoneSettings.zones.length →
      resolve_zone_key twoZoneSettings "2" = (twoZoneSettings.zones.map Prod.fst)[1]?) ∧
    ((twoZoneSettings.zones.map Prod.fst).head? = some "zone_a" →
      canonicalize_identifier "zone_a" = "zone1" →
      resolve_zone_key twoZoneSettings "Zone-1" = resolve_zone_key twoZoneSettings "zone1") :=
  resolve_zone_spec twoZoneSettings "zone 2" 2 "zone_a"

end Makina
